import Mathlib

/-!
Shallow embedding of the prompt-construction core of `src/2.py`
(a Streamlit front end around a Kimi chat-completion call).

The embedded part is the Template Registry `PROMPT_TEMPLATES` and the
function `generate_content(kimi_api_key, template_type, param_dict)`.
Python raw values (strings or integers from the form widgets) are the
type `PyVal`; a Python dict of parameters is an association list with
first-match lookup; the upstream chat-completion call is a parameter
`upstream : String → Except String String` taking the prompt and
returning either the generated text or the text of the raised
exception.  Every `try/except` of the source is an `Except` match, so
the embedded function is total and returns the exact result strings of
the source.  The OpenAI client construction (lines 36-43 of the
source) has no observable effect besides possibly raising in exotic
environments; it is treated as always succeeding, as the spec treats
the HTTP client as an external collaborator.  String helpers are
re-implemented over `List Char` (ASCII whitespace / case folding,
which covers every string the program compares).
-/

/-- Raw value of a form parameter: Python `str` or `int`. -/
inductive PyVal where
  | str (s : String)
  | int (n : Int)
deriving DecidableEq

/-- Python `str(value)` for the two value shapes used by the program. -/
def valueStr : PyVal → String
  | PyVal.str s => s
  | PyVal.int n => toString n

/-- Python truthiness of a raw value (`""` and `0` are falsy). -/
def truthy : PyVal → Bool
  | PyVal.str s => !(s == "")
  | PyVal.int n => !(n == 0)

/-- Drop ASCII whitespace from both ends, as Python `str.strip()` does. -/
def strTrim (s : String) : String :=
  String.mk (((s.toList.dropWhile Char.isWhitespace).reverse.dropWhile Char.isWhitespace).reverse)

/-- Python `s.startswith(p)`. -/
def strStartsWith (s p : String) : Bool :=
  p.toList.isPrefixOf s.toList

/-- Python `s.lower()` (ASCII case folding, enough for the compared literals). -/
def strLower (s : String) : String :=
  String.mk (s.toList.map Char.toLower)

/-- Whether `sub` occurs contiguously inside the second list. -/
def hasInfix (sub : List Char) : List Char → Bool
  | [] => sub.isEmpty
  | c :: t => sub.isPrefixOf (c :: t) || hasInfix sub t

/-- Python `sub in s` for strings (substring containment). -/
def strContains (s sub : String) : Bool :=
  hasInfix sub.toList s.toList

/-- Python `sep.join(l)`. -/
def joinSep (sep : String) : List String → String
  | [] => ""
  | [x] => x
  | x :: xs => x ++ sep ++ joinSep sep xs

/-- Digits of a Python integer literal after the first digit: digit runs
with single underscores allowed between digits, as `int()` accepts. -/
def pyDigitsAux : Nat → List Char → Option Nat
  | acc, [] => some acc
  | acc, c :: rest =>
    if c = '_' then
      match rest with
      | [] => none
      | c2 :: rest2 =>
        if c2.isDigit then pyDigitsAux (acc * 10 + (c2.toNat - 48)) rest2 else none
    else if c.isDigit then pyDigitsAux (acc * 10 + (c.toNat - 48)) rest
    else none

/-- Python `int(s)` on a string: strip whitespace, optional sign, digits
(ASCII digits; `none` models the raised `ValueError`). -/
def pyIntOfString (s : String) : Option Int :=
  match (strTrim s).toList with
  | [] => none
  | c :: rest =>
    if c = '+' then
      match rest with
      | c2 :: rest2 =>
        if c2.isDigit then (pyDigitsAux (c2.toNat - 48) rest2).map Int.ofNat else none
      | [] => none
    else if c = '-' then
      match rest with
      | c2 :: rest2 =>
        if c2.isDigit then (pyDigitsAux (c2.toNat - 48) rest2).map (fun n => -Int.ofNat n) else none
      | [] => none
    else if c.isDigit then (pyDigitsAux (c.toNat - 48) rest).map Int.ofNat
    else none

/-- Python `int(value)` on a raw value; `none` models the raised exception. -/
def pyInt : PyVal → Option Int
  | PyVal.str s => pyIntOfString s
  | PyVal.int n => some n

/-- First-match lookup in a parameter dict, `param_dict.get(k)` shape. -/
def pdFind (d : List (String × PyVal)) (k : String) : Option PyVal :=
  (d.find? (fun e => e.1 == k)).map (fun e => e.2)

/-- Python `param_dict.get(k, "")`: the stored value, or `""` when absent. -/
def pdGet (d : List (String × PyVal)) (k : String) : PyVal :=
  (pdFind d k).getD (PyVal.str "")

/-- One entry of `PROMPT_TEMPLATES`: the dict with keys `template` and `params`. -/
structure TemplateInfo where
  template : String
  params : List String
deriving DecidableEq

/-- The `"故事生成"` registry entry (source lines 11-14). -/
def storyInfo : TemplateInfo :=
  ⟨"请以\x7b主题\x7d为核心，写一个\x7b风格\x7d风格的短篇故事，字数控制在\x7b字数\x7d字左右。要求情节完整，角色鲜明，语言流畅。",
   ["主题", "风格", "字数"]⟩

/-- The `"营销文案"` registry entry (source lines 15-18). -/
def marketingInfo : TemplateInfo :=
  ⟨"为\x7b产品名称\x7d撰写\x7b平台\x7d平台的营销文案，突出\x7b核心卖点\x7d，语言风格\x7b风格\x7d，字数控制在\x7b字数\x7d字内。需吸引目标用户，激发购买欲。",
   ["产品名称", "平台", "核心卖点", "风格", "字数"]⟩

/-- The `"论文提纲"` registry entry (source lines 19-22). -/
def paperInfo : TemplateInfo :=
  ⟨"为《\x7b论文题目\x7d》（\x7b学科\x7d领域）设计详细提纲，逻辑清晰，结构完整，至少包含\x7b章节数\x7d个章节。需列出每个章节的核心研究内容和逻辑关联。",
   ["论文题目", "学科", "章节数"]⟩

/-- The `"自由创作"` registry entry (source lines 23-26). -/
def freeformInfo : TemplateInfo :=
  ⟨"\x7b用户输入\x7d", ["用户输入"]⟩

/-- The Template Registry `PROMPT_TEMPLATES` of the source (lines 10-27),
an immutable constant of the program. -/
def PROMPT_TEMPLATES : List (String × TemplateInfo) :=
  [("故事生成", storyInfo), ("营销文案", marketingInfo),
   ("论文提纲", paperInfo), ("自由创作", freeformInfo)]

/-- Kimi endpoint constant of the source (line 6); not otherwise modelled. -/
def KIMI_BASE_URL : String := "https://api.moonshot.cn/v1"

/-- Kimi model constant of the source (line 7); not otherwise modelled. -/
def KIMI_MODEL : String := "moonshot-v1-8k"

/-- A token of a format string: a literal character or a `\x7bname\x7d` field. -/
inductive Tok where
  | lit (c : Char)
  | field (name : String)
deriving DecidableEq

/-- The opening brace character. -/
def lbrace : Char := Char.ofNat 123

/-- The closing brace character. -/
def rbrace : Char := Char.ofNat 125

/-- A single-quote character as a string (Python `str(KeyError(k))` is `\x27k\x27`). -/
def squote : String := "\x27"

/-- Scanner of Python `str.format` templates.  The second argument is
`none` while scanning literal text and `some acc` inside a field name
with `acc` the name read so far.  Errors model the `ValueError`s format
raises on stray braces. -/
def tokenizeAux : List Char → Option (List Char) → Except String (List Tok)
  | [], none => Except.ok []
  | [], some _ => Except.error "expected \x27\x7d\x27 before end of string"
  | c :: rest, none =>
    if c = lbrace then
      match rest with
      | [] => Except.error "Single \x27\x7b\x27 encountered in format string"
      | c2 :: rest2 =>
        if c2 = lbrace then (tokenizeAux rest2 none).map (fun ts => Tok.lit lbrace :: ts)
        else tokenizeAux (c2 :: rest2) (some [])
    else if c = rbrace then
      match rest with
      | [] => Except.error "Single \x27\x7d\x27 encountered in format string"
      | c2 :: rest2 =>
        if c2 = rbrace then (tokenizeAux rest2 none).map (fun ts => Tok.lit rbrace :: ts)
        else Except.error "Single \x27\x7d\x27 encountered in format string"
    else (tokenizeAux rest none).map (fun ts => Tok.lit c :: ts)
  | c :: rest, some acc =>
    if c = rbrace then (tokenizeAux rest none).map (fun ts => Tok.field (String.mk acc) :: ts)
    else tokenizeAux rest (some (acc ++ [c]))

/-- Substitute the fields of a tokenized template from the dict; a field
absent from the dict models the `KeyError` format raises. -/
def renderToks (d : List (String × PyVal)) : List Tok → Except String String
  | [] => Except.ok ""
  | Tok.lit c :: rest => (renderToks d rest).map (fun s => String.mk [c] ++ s)
  | Tok.field n :: rest =>
    match pdFind d n with
    | none => Except.error (squote ++ n ++ squote)
    | some v => (renderToks d rest).map (fun s => valueStr v ++ s)

/-- Python `template.format(**param_dict)` (source line 73): either the
rendered string or the text of the raised exception. -/
def pyFormat (t : String) (d : List (String × PyVal)) : Except String String :=
  (tokenizeAux t.toList none).bind (fun ts => renderToks d ts)

/-- The parameter names the validator treats as numeric (source line 57). -/
def numericNames : List String := ["字数", "章节数"]

/-- Source line 59: `int(value) if value else 0`, with `none` for a raised
conversion error. -/
def coerceNum (value : PyVal) : Option Int :=
  if truthy value then pyInt value else some 0

/-- Whether one required parameter is counted missing-or-invalid by the
loop of source lines 55-66, given the value `param_dict.get(param, "")`. -/
def paramInvalid (param : String) (value : PyVal) : Bool :=
  if numericNames.contains param then
    match coerceNum value with
    | none => true
    | some n => decide (n ≤ 0)
  else strTrim (valueStr value) == ""

/-- The list `invalid_or_missing` built by source lines 54-66: the required
names whose supplied value fails validation, in declaration order. -/
def invalidParams (required_params : List String) (param_dict : List (String × PyVal)) : List String :=
  required_params.filter (fun param => paramInvalid param (pdGet param_dict param))

/-- The classification of a caught exception text (source lines 82-88). -/
def classify_error (e : String) : String :=
  let error_info := strLower e
  if strContains error_info "invalid api key" then "❌ Kimi API 密钥无效或已过期！"
  else if strContains error_info "insufficient funds" then "❌ Kimi 账户余额不足，请前往官网充值！"
  else "❌ 生成失败：" ++ e

/-- The credential format check of source line 32:
`kimi_api_key and str(kimi_api_key).strip().startswith("sk-")`. -/
def credential_ok (kimi_api_key : String) : Bool :=
  !(kimi_api_key == "") && strStartsWith (strTrim kimi_api_key) "sk-"

/-- `generate_content` of source lines 30-88, with the registry a
parameter (the source reads the global `PROMPT_TEMPLATES`) so that the
behaviour on a hypothetical mismatched registry is statable, and the
upstream chat-completion call a function parameter. -/
def generate_content_with (registry : List (String × TemplateInfo))
    (upstream : String → Except String String)
    (kimi_api_key template_type : String) (param_dict : List (String × PyVal)) : String :=
  if credential_ok kimi_api_key then
    match List.lookup template_type registry with
    | none => "❌ 模板类型错误，无此生成模板！"
    | some template_info =>
      if invalidParams template_info.params param_dict = [] then
        match pyFormat template_info.template param_dict with
        | Except.error e => classify_error e
        | Except.ok prompt =>
          match upstream prompt with
          | Except.ok text => text
          | Except.error e => classify_error e
      else
        "❌ 缺少或无效参数：" ++ joinSep ", " (invalidParams template_info.params param_dict) ++
          "（请填写有效且非空的内容）"
  else "❌ 请输入有效的 Kimi API 密钥（以 sk- 开头）！"

/-- `generate_content` of the source, reading the global registry. -/
def generate_content (upstream : String → Except String String)
    (kimi_api_key template_type : String) (param_dict : List (String × PyVal)) : String :=
  generate_content_with PROMPT_TEMPLATES upstream kimi_api_key template_type param_dict

/-- Whether every field of a template is among the given parameter names. -/
def fieldsSubset (t : String) (ps : List String) : Bool :=
  match tokenizeAux t.toList none with
  | Except.error _ => false
  | Except.ok toks =>
    toks.all (fun tk => match tk with | Tok.field n => ps.contains n | Tok.lit _ => true)

/-- Whether `p` occurs as a `\x7bp\x7d` placeholder field of template `t`. -/
def hasPlaceholder (t p : String) : Bool :=
  match tokenizeAux t.toList none with
  | Except.error _ => false
  | Except.ok toks => toks.contains (Tok.field p)

/-- The story scenario parameters of the spec (§8): 主题=友情, 风格=治愈, 字数=500. -/
def storyScenarioParams : List (String × PyVal) :=
  [("主题", PyVal.str "友情"), ("风格", PyVal.str "治愈"), ("字数", PyVal.int 500)]

/-- The story template rendered at the scenario parameters. -/
def storyRendered : String :=
  "请以友情为核心，写一个治愈风格的短篇故事，字数控制在500字左右。要求情节完整，角色鲜明，语言流畅。"

/-- A one-entry registry whose template mentions a field `b` that is not
among its required parameters: the template/registry mismatch the spec's
defensive render check is about. -/
def badRegistry : List (String × TemplateInfo) :=
  [("t", ⟨"\x7ba\x7d\x7bb\x7d", ["a"]⟩)]

/-- A parameter whose looked-up value is the default `""` is always
counted invalid, whichever validation branch applies. -/
theorem paramInvalid_str_empty (p : String) : paramInvalid p (PyVal.str "") = true := by
  unfold paramInvalid
  split
  · rfl
  · rfl

/-- When the validation loop accepts a required parameter, the parameter
is genuinely present in the dict (the default `""` never validates). -/
theorem pdFind_of_not_invalid (d : List (String × PyVal)) (p : String)
    (h : paramInvalid p (pdGet d p) = false) : pdFind d p = some (pdGet d p) := by
  cases hf : pdFind d p with
  | none =>
    exfalso
    have he : pdGet d p = PyVal.str "" := by unfold pdGet; rw [hf]; rfl
    rw [he, paramInvalid_str_empty] at h
    exact Bool.noConfusion h
  | some v =>
    have he : pdGet d p = v := by unfold pdGet; rw [hf]; rfl
    rw [he]

/-- Rendering a token list succeeds when every field is present in the dict. -/
theorem renderToks_isOk (d : List (String × PyVal)) :
    ∀ toks : List Tok, (∀ n, Tok.field n ∈ toks → (pdFind d n).isSome = true) →
      ∃ s, renderToks d toks = Except.ok s
  | [], _ => ⟨"", rfl⟩
  | Tok.lit c :: rest, h => by
    obtain ⟨s, hs⟩ := renderToks_isOk d rest (fun n hn => h n (List.mem_cons_of_mem _ hn))
    exact ⟨String.mk [c] ++ s, by simp [renderToks, hs, Except.map]⟩
  | Tok.field n :: rest, h => by
    have hn := h n (List.mem_cons_self _ _)
    obtain ⟨v, hv⟩ := Option.isSome_iff_exists.mp hn
    obtain ⟨s, hs⟩ := renderToks_isOk d rest (fun m hm => h m (List.mem_cons_of_mem _ hm))
    exact ⟨valueStr v ++ s, by simp [renderToks, hv, hs, Except.map]⟩

/-- Rendering depends only on the dict entries at the fields of the token list. -/
theorem renderToks_congr (d1 d2 : List (String × PyVal)) :
    ∀ toks : List Tok, (∀ n, Tok.field n ∈ toks → pdFind d1 n = pdFind d2 n) →
      renderToks d1 toks = renderToks d2 toks
  | [], _ => rfl
  | Tok.lit c :: rest, h => by
    have h2 := renderToks_congr d1 d2 rest (fun n hn => h n (List.mem_cons_of_mem _ hn))
    simp only [renderToks, h2]
  | Tok.field n :: rest, h => by
    have h1 := h n (List.mem_cons_self _ _)
    have h2 := renderToks_congr d1 d2 rest (fun m hm => h m (List.mem_cons_of_mem _ hm))
    simp only [renderToks, h1, h2]

/-- `pyFormat` succeeds when the template's fields are among `ps` and every
name in `ps` is present in the dict. -/
theorem pyFormat_isOk {t : String} {ps : List String} (d : List (String × PyVal))
    (hf : fieldsSubset t ps = true) (h : ∀ p ∈ ps, (pdFind d p).isSome = true) :
    ∃ s, pyFormat t d = Except.ok s := by
  unfold fieldsSubset at hf
  unfold pyFormat
  cases htk : tokenizeAux t.toList none with
  | error e => rw [htk] at hf; exact absurd hf (by simp)
  | ok toks =>
    rw [htk] at hf
    have hpres : ∀ n, Tok.field n ∈ toks → (pdFind d n).isSome = true := by
      intro n hn
      have hmem := List.all_eq_true.mp hf _ hn
      simp only at hmem
      exact h n (by simpa using hmem)
    obtain ⟨s, hs⟩ := renderToks_isOk d toks hpres
    exact ⟨s, by simp [Except.bind, hs]⟩

/-- `pyFormat` depends only on the dict entries at names in `ps` when the
template's fields are among `ps`. -/
theorem pyFormat_congr {t : String} {ps : List String} (d1 d2 : List (String × PyVal))
    (hf : fieldsSubset t ps = true) (h : ∀ p ∈ ps, pdFind d1 p = pdFind d2 p) :
    pyFormat t d1 = pyFormat t d2 := by
  unfold fieldsSubset at hf
  unfold pyFormat
  cases htk : tokenizeAux t.toList none with
  | error e => rfl
  | ok toks =>
    rw [htk] at hf
    have hpres : ∀ n, Tok.field n ∈ toks → pdFind d1 n = pdFind d2 n := by
      intro n hn
      have hmem := List.all_eq_true.mp hf _ hn
      simp only at hmem
      exact h n (by simpa using hmem)
    have := renderToks_congr d1 d2 toks hpres
    simp [Except.bind, this]

/-- Resolving a name in the registry yields one of the four fixed entries. -/
theorem lookup_PROMPT (tname : String) (info : TemplateInfo)
    (h : List.lookup tname PROMPT_TEMPLATES = some info) :
    (tname = "故事生成" ∧ info = storyInfo) ∨ (tname = "营销文案" ∧ info = marketingInfo) ∨
    (tname = "论文提纲" ∧ info = paperInfo) ∨ (tname = "自由创作" ∧ info = freeformInfo) := by
  by_cases h1 : tname = "故事生成"
  · subst h1
    rw [show List.lookup "故事生成" PROMPT_TEMPLATES = some storyInfo from rfl] at h
    exact Or.inl ⟨rfl, (Option.some.inj h).symm⟩
  by_cases h2 : tname = "营销文案"
  · subst h2
    rw [show List.lookup "营销文案" PROMPT_TEMPLATES = some marketingInfo from rfl] at h
    exact Or.inr (Or.inl ⟨rfl, (Option.some.inj h).symm⟩)
  by_cases h3 : tname = "论文提纲"
  · subst h3
    rw [show List.lookup "论文提纲" PROMPT_TEMPLATES = some paperInfo from rfl] at h
    exact Or.inr (Or.inr (Or.inl ⟨rfl, (Option.some.inj h).symm⟩))
  by_cases h4 : tname = "自由创作"
  · subst h4
    rw [show List.lookup "自由创作" PROMPT_TEMPLATES = some freeformInfo from rfl] at h
    exact Or.inr (Or.inr (Or.inr ⟨rfl, (Option.some.inj h).symm⟩))
  exfalso
  simp only [PROMPT_TEMPLATES, List.lookup] at h
  rw [beq_eq_false_iff_ne.mpr h1, beq_eq_false_iff_ne.mpr h2, beq_eq_false_iff_ne.mpr h3,
    beq_eq_false_iff_ne.mpr h4] at h
  simp at h

/-- Each registered template's fields are among its required parameters. -/
theorem fieldsSubset_of_lookup {tname : String} {info : TemplateInfo}
    (h : List.lookup tname PROMPT_TEMPLATES = some info) :
    fieldsSubset info.template info.params = true := by
  rcases lookup_PROMPT tname info h with ⟨-, h2⟩ | ⟨-, h2⟩ | ⟨-, h2⟩ | ⟨-, h2⟩ <;>
    subst h2 <;> decide

/-- The credential check of line 32 looks only at the stripped credential. -/
theorem credential_ok_eq_trim (k : String) :
    credential_ok k = strStartsWith (strTrim k) "sk-" := by
  by_cases h : k = ""
  · subst h; rfl
  · unfold credential_ok
    rw [show (k == "") = false from beq_eq_false_iff_ne.mpr h]
    simp

/-- Appending dict entries at other names does not change a lookup. -/
theorem pdFind_append (d extras : List (String × PyVal)) (p : String)
    (h : ∀ e ∈ extras, e.1 ≠ p) : pdFind (d ++ extras) p = pdFind d p := by
  unfold pdFind
  rw [List.find?_append]
  cases hf : List.find? (fun e => e.1 == p) d with
  | some v => rfl
  | none =>
    have hx : List.find? (fun e => e.1 == p) extras = none := by
      rw [List.find?_eq_none]
      intro x hx
      simp only [beq_iff_eq]
      exact h x hx
    rw [hx]; rfl

/-- When the validation loop reports nothing, every required parameter's
looked-up value passed its branch. -/
theorem invalid_nil_valid {ps : List String} {d : List (String × PyVal)}
    (h : invalidParams ps d = []) :
    ∀ p ∈ ps, paramInvalid p (pdGet d p) = false := by
  intro p hp
  have := List.filter_eq_nil_iff.mp h p hp
  simpa using this

/-- Branch-level characterization of the validation loop of lines 55-66:
numeric names (字数, 章节数) are invalid exactly when the coerced value is
absent or non-positive, all other names exactly when the trimmed string
value is empty. -/
theorem paramInvalid_iff (p : String) (v : PyVal) :
    paramInvalid p v = true ↔
      ((p = "字数" ∨ p = "章节数") ∧ ∀ n : Int, coerceNum v = some n → n ≤ 0) ∨
      (¬(p = "字数" ∨ p = "章节数") ∧ strTrim (valueStr v) = "") := by
  have hc : numericNames.contains p = true ↔ (p = "字数" ∨ p = "章节数") := by
    simp [numericNames]
  unfold paramInvalid
  by_cases hn : p = "字数" ∨ p = "章节数"
  · rw [if_pos (hc.mpr hn)]
    cases hcv : coerceNum v with
    | none =>
      simp only [true_iff]
      exact Or.inl ⟨hn, fun n hx => Option.noConfusion hx⟩
    | some n =>
      constructor
      · intro hd
        refine Or.inl ⟨hn, fun m hm => ?_⟩
        cases Option.some.inj hm
        exact of_decide_eq_true hd
      · rintro (⟨-, hall⟩ | ⟨hn2, -⟩)
        · exact decide_eq_true (hall n rfl)
        · exact absurd hn hn2
  · rw [if_neg (fun hx => hn (hc.mp hx))]
    simp [hn, beq_iff_eq]

/-- C1: for every registered template and every parameter set, the
validation loop reports exactly the invalid required parameters: a
parameter classified numeric by name convention (字数 or 章节数) is
reported iff its supplied value fails integer coercion or coerces to a
value ≤ 0 (a missing or empty value coercing to 0), and every other
required parameter is reported iff its trimmed string value is empty;
parameters with valid values are not reported. -/
theorem C1_invalid_params_exact (tname : String) (info : TemplateInfo)
    (_hl : List.lookup tname PROMPT_TEMPLATES = some info)
    (d : List (String × PyVal)) (p : String) :
    p ∈ invalidParams info.params d ↔
      p ∈ info.params ∧
        (((p = "字数" ∨ p = "章节数") ∧ ∀ n : Int, coerceNum (pdGet d p) = some n → n ≤ 0) ∨
         (¬(p = "字数" ∨ p = "章节数") ∧ strTrim (valueStr (pdGet d p)) = "")) := by
  unfold invalidParams
  rw [List.mem_filter]
  exact and_congr_right fun _ => paramInvalid_iff p (pdGet d p)

/-- C1 witness: for the registered paper-outline template, 章节数 = 0 is
reported among the invalid parameters. -/
theorem C1_invalid_params_exact_witness :
    "章节数" ∈ invalidParams paperInfo.params
      [("论文题目", PyVal.str "题"), ("学科", PyVal.str "文"), ("章节数", PyVal.int 0)] := by
  refine (C1_invalid_params_exact "论文提纲" paperInfo rfl _ "章节数").mpr ?_
  refine ⟨by decide, Or.inl ⟨Or.inr rfl, fun n hn => ?_⟩⟩
  have h0 : coerceNum (pdGet
      [("论文题目", PyVal.str "题"), ("学科", PyVal.str "文"), ("章节数", PyVal.int 0)]
      "章节数") = some 0 := by decide
  rw [h0] at hn
  have := Option.some.inj hn
  omega

/-- C2 counterexample: the credential " sk-a" does not start with "sk-",
yet the call succeeds instead of yielding the InvalidCredential message —
the code strips the credential before the prefix check, so the claim as
stated fails at this input. -/
theorem C2_counterexample :
    strStartsWith " sk-a" "sk-" = false ∧
    generate_content (fun _ => Except.ok "done") " sk-a" "自由创作"
        [("用户输入", PyVal.str "hi")] = "done" ∧
    generate_content (fun _ => Except.ok "done") " sk-a" "自由创作"
        [("用户输入", PyVal.str "hi")] ≠ "❌ 请输入有效的 Kimi API 密钥（以 sk- 开头）！" :=
  ⟨by decide, rfl, by decide⟩

/-- C2 amended: a credential that is empty or whose whitespace-stripped
value does not start with "sk-" yields the InvalidCredential message,
regardless of the template name and parameters, and this is decided
before template resolution and independently of the upstream call. -/
theorem C2_invalid_credential (key : String)
    (hk : key = "" ∨ strStartsWith (strTrim key) "sk-" = false) :
    ∀ (tname : String) (d : List (String × PyVal)) (upstream : String → Except String String),
      generate_content upstream key tname d = "❌ 请输入有效的 Kimi API 密钥（以 sk- 开头）！" := by
  intro tname d upstream
  have hco : credential_ok key = false := by
    rw [credential_ok_eq_trim]
    rcases hk with h | h
    · subst h; rfl
    · exact h
  unfold generate_content generate_content_with
  rw [hco]
  simp

/-- C2 amended witness: a non-empty credential without the prefix is
rejected whatever the template and parameters. -/
theorem C2_invalid_credential_witness :
    generate_content (fun _ => Except.ok "text") "abc" "故事生成" [] =
      "❌ 请输入有效的 Kimi API 密钥（以 sk- 开头）！" :=
  C2_invalid_credential "abc" (Or.inr rfl) "故事生成" [] (fun _ => Except.ok "text")

/-- C3: the registry holds exactly the four fixed entries (immutable
constants of the embedding), and every name in each entry's
required-parameter list occurs as a placeholder field of its template
string. -/
theorem C3_registry_consistent :
    PROMPT_TEMPLATES.length = 4 ∧
    PROMPT_TEMPLATES = [("故事生成", storyInfo), ("营销文案", marketingInfo),
      ("论文提纲", paperInfo), ("自由创作", freeformInfo)] ∧
    ∀ e ∈ PROMPT_TEMPLATES, ∀ p ∈ e.2.params, hasPlaceholder e.2.template p = true := by
  refine ⟨rfl, rfl, ?_⟩
  decide

/-- C8: with a well-formed credential, a template name that is not a
registered key yields the UnknownTemplate message for every parameter
set and every upstream behaviour (so neither parameter validation nor
the upstream call affects the outcome). -/
theorem C8_unknown_template (key : String) (hk : credential_ok key = true)
    (tname : String) (hl : List.lookup tname PROMPT_TEMPLATES = none)
    (d : List (String × PyVal)) (upstream : String → Except String String) :
    generate_content upstream key tname d = "❌ 模板类型错误，无此生成模板！" := by
  unfold generate_content generate_content_with
  rw [hk, hl]
  simp

/-- C8 witness: an unknown template name with a valid credential. -/
theorem C8_unknown_template_witness :
    generate_content (fun _ => Except.ok "text") "sk-x" "不存在的模板" [] =
      "❌ 模板类型错误，无此生成模板！" :=
  C8_unknown_template "sk-x" rfl "不存在的模板" rfl [] (fun _ => Except.ok "text")

/-- C9: the credential is stripped of leading and trailing whitespace
before the prefix check and before use, so the whole outcome depends
only on the stripped credential; in particular whitespace followed by
"sk-" and further characters passes the credential check. -/
theorem C9_credential_stripped :
    (∀ k1 k2 : String, strTrim k1 = strTrim k2 →
        ∀ (tname : String) (d : List (String × PyVal))
          (upstream : String → Except String String),
          generate_content upstream k1 tname d = generate_content upstream k2 tname d) ∧
    credential_ok "  sk-abc" = true := by
  refine ⟨?_, rfl⟩
  intro k1 k2 h tname d upstream
  unfold generate_content generate_content_with
  rw [credential_ok_eq_trim, credential_ok_eq_trim, h]

/-- C9 witness: a whitespace-prefixed credential behaves exactly like its
stripped form. -/
theorem C9_credential_stripped_witness :
    generate_content (fun _ => Except.ok "t") "  sk-abc" "自由创作" [("用户输入", PyVal.str "x")] =
      generate_content (fun _ => Except.ok "t") "sk-abc" "自由创作" [("用户输入", PyVal.str "x")] :=
  C9_credential_stripped.1 "  sk-abc" "sk-abc" rfl "自由创作" [("用户输入", PyVal.str "x")]
    (fun _ => Except.ok "t")

/-- C4: when at least one required parameter is missing or invalid, the
result is a single InvalidParameters message listing every offending
name (not only the first), the names appearing in the declaration order
of the template's requiredParams. -/
theorem C4_error_accumulation (key : String) (hk : credential_ok key = true)
    (tname : String) (info : TemplateInfo)
    (hl : List.lookup tname PROMPT_TEMPLATES = some info)
    (d : List (String × PyVal)) (hne : invalidParams info.params d ≠ []) :
    (∀ upstream : String → Except String String,
      generate_content upstream key tname d =
        "❌ 缺少或无效参数：" ++ joinSep ", " (invalidParams info.params d) ++
          "（请填写有效且非空的内容）") ∧
    List.Sublist (invalidParams info.params d) info.params ∧
    (∀ p ∈ info.params, paramInvalid p (pdGet d p) = true → p ∈ invalidParams info.params d) := by
  refine ⟨?_, List.filter_sublist _, ?_⟩
  · intro upstream
    unfold generate_content generate_content_with
    rw [hk, hl]
    simp [hne]
  · intro p hp hinv
    exact List.mem_filter.mpr ⟨hp, hinv⟩

/-- C4 witness: with 学科 missing and 章节数 missing, both names are listed,
in declaration order. -/
theorem C4_error_accumulation_witness :
    generate_content (fun _ => Except.ok "x") "sk-w" "论文提纲" [("论文题目", PyVal.str "T")] =
      "❌ 缺少或无效参数：学科, 章节数（请填写有效且非空的内容）" := by
  have h := (C4_error_accumulation "sk-w" rfl "论文提纲" paperInfo rfl
    [("论文题目", PyVal.str "T")] (by decide)).1 (fun _ => Except.ok "x")
  rw [h]
  decide

/-- C5: when the upstream call fails, the result is the
AuthenticationFailed message if the failure text contains
"invalid api key" case-insensitively, else the QuotaExceeded message if
it contains "insufficient funds", and otherwise the generic failure
message carrying the failure text; the failure is returned as a value
(the embedded function is total, mirroring the enclosing try/except). -/
theorem C5_upstream_classification (key : String) (hk : credential_ok key = true)
    (tname : String) (info : TemplateInfo)
    (hl : List.lookup tname PROMPT_TEMPLATES = some info)
    (d : List (String × PyVal)) (hv : invalidParams info.params d = [])
    (prompt : String) (hr : pyFormat info.template d = Except.ok prompt)
    (upstream : String → Except String String) (e : String)
    (hu : upstream prompt = Except.error e) :
    generate_content upstream key tname d =
      (if strContains (strLower e) "invalid api key" then "❌ Kimi API 密钥无效或已过期！"
       else if strContains (strLower e) "insufficient funds" then
         "❌ Kimi 账户余额不足，请前往官网充值！"
       else "❌ 生成失败：" ++ e) := by
  unfold generate_content generate_content_with
  rw [hk, hl]
  simp [hv, hr, hu, classify_error]

/-- C5 witness: an upstream failure mentioning an invalid key in mixed
case is classified as AuthenticationFailed. -/
theorem C5_upstream_classification_witness :
    generate_content (fun _ => Except.error "Error: Invalid API Key provided") "sk-w" "自由创作"
        [("用户输入", PyVal.str "x")] = "❌ Kimi API 密钥无效或已过期！" := by
  have h := C5_upstream_classification "sk-w" rfl "自由创作" freeformInfo rfl
    [("用户输入", PyVal.str "x")] (by decide) "x" rfl
    (fun _ => Except.error "Error: Invalid API Key provided") "Error: Invalid API Key provided" rfl
  rw [h]
  decide

/-- C6 counterexample: under a registry entry whose template mentions a
field (b) that is not among its required parameters, the render failure
is caught by the same handler as upstream failures and yields the
generic 生成失败 message — byte-identical to the message a pure upstream
failure with the same exception text produces — so the claimed distinct
RenderError category does not exist in the code. -/
theorem C6_counterexample :
    generate_content_with badRegistry (fun _ => Except.ok "ok") "sk-k" "t"
        [("a", PyVal.str "x")] = "❌ 生成失败：\x27b\x27" ∧
    generate_content (fun _ => Except.error "\x27b\x27") "sk-test" "自由创作"
        [("用户输入", PyVal.str "y")] = "❌ 生成失败：\x27b\x27" :=
  ⟨by decide, by decide⟩

/-- C6 amended: if a placeholder of the resolved template has no supplied
value, the raised KeyError is caught and returned through the same
classification as upstream failures (yielding the generic 生成失败 message
that names the missing key), rather than a distinct RenderError
category; with the actual registry this situation cannot arise once
validation has passed. -/
theorem C6_render_mismatch (registry : List (String × TemplateInfo)) (key : String)
    (hk : credential_ok key = true) (tname : String) (info : TemplateInfo)
    (hl : List.lookup tname registry = some info)
    (d : List (String × PyVal)) (hv : invalidParams info.params d = [])
    (e : String) (hr : pyFormat info.template d = Except.error e)
    (upstream : String → Except String String) :
    generate_content_with registry upstream key tname d = classify_error e := by
  unfold generate_content_with
  rw [hk, hl]
  simp [hv, hr]

/-- C6 amended witness: the mismatched registry entry renders into the
caught-KeyError path. -/
theorem C6_render_mismatch_witness :
    generate_content_with badRegistry (fun _ => Except.ok "ok") "sk-k" "t"
        [("a", PyVal.str "x")] = classify_error "\x27b\x27" :=
  C6_render_mismatch badRegistry "sk-k" rfl "t" ⟨"\x7ba\x7d\x7bb\x7d", ["a"]⟩ rfl
    [("a", PyVal.str "x")] (by decide) "\x27b\x27" rfl (fun _ => Except.ok "ok")

/-- C7: with a valid credential, a registered template and all required
parameters valid, the prompt sent upstream is the template string with
every placeholder substituted by the corresponding supplied value, and
the upstream outcome is returned unchanged on success; in particular
the story template at 主题=友情, 风格=治愈, 字数=500 renders to exactly the
substituted template, which contains no remaining placeholder brace,
and a stubbed upstream "Success" is returned unchanged. -/
theorem C7_render_and_delegate :
    (∀ key : String, credential_ok key = true →
      ∀ (tname : String) (info : TemplateInfo),
        List.lookup tname PROMPT_TEMPLATES = some info →
        ∀ d : List (String × PyVal), invalidParams info.params d = [] →
          ∃ prompt, pyFormat info.template d = Except.ok prompt ∧
            ∀ upstream : String → Except String String,
              generate_content upstream key tname d =
                match upstream prompt with
                | Except.ok text => text
                | Except.error e => classify_error e) ∧
    pyFormat storyInfo.template storyScenarioParams = Except.ok storyRendered ∧
    generate_content (fun _ => Except.ok "Success") "sk-test" "故事生成" storyScenarioParams =
      "Success" ∧
    strContains storyRendered (String.mk [lbrace]) = false ∧
    strContains storyRendered (String.mk [rbrace]) = false := by
  refine ⟨?_, rfl, rfl, by decide, by decide⟩
  intro key hk tname info hl d hv
  have hvalid := invalid_nil_valid hv
  have hpres : ∀ p ∈ info.params, (pdFind d p).isSome = true := by
    intro p hp
    rw [pdFind_of_not_invalid d p (hvalid p hp)]
    rfl
  obtain ⟨prompt, hout⟩ := pyFormat_isOk d (fieldsSubset_of_lookup hl) hpres
  refine ⟨prompt, hout, ?_⟩
  intro upstream
  unfold generate_content generate_content_with
  rw [hk, hl]
  simp [hv, hout]

/-- C7 witness: an upstream echoing its prompt returns the rendered story
prompt itself. -/
theorem C7_render_and_delegate_witness :
    generate_content (fun p => Except.ok p) "sk-test" "故事生成" storyScenarioParams =
      storyRendered := by
  obtain ⟨prompt, hp, hall⟩ := C7_render_and_delegate.1 "sk-test" rfl "故事生成" storyInfo rfl
    storyScenarioParams (by decide)
  have h2 : Except.ok (ε := String) storyRendered = Except.ok prompt := by
    rw [show pyFormat storyInfo.template storyScenarioParams = Except.ok storyRendered from rfl]
      at hp
    exact hp
  rw [hall (fun p => Except.ok p)]
  exact (Except.ok.inj h2).symm

/-- C10: for a registered template, the whole outcome — validation
decision, rendered prompt, and hence the result — depends only on the
credential, the template name, and the dict values at the template's
required parameter names: dicts agreeing there are indistinguishable,
and appending extra entries at other names never changes the result (in
particular extra entries never cause an InvalidParameters failure). -/
theorem C10_noninterference (tname : String) (info : TemplateInfo)
    (hl : List.lookup tname PROMPT_TEMPLATES = some info)
    (key : String) (upstream : String → Except String String) :
    (∀ d1 d2 : List (String × PyVal), (∀ p ∈ info.params, pdGet d1 p = pdGet d2 p) →
      generate_content upstream key tname d1 = generate_content upstream key tname d2) ∧
    (∀ d extras : List (String × PyVal), (∀ e ∈ extras, e.1 ∉ info.params) →
      generate_content upstream key tname (d ++ extras) =
        generate_content upstream key tname d) := by
  have main : ∀ d1 d2 : List (String × PyVal), (∀ p ∈ info.params, pdGet d1 p = pdGet d2 p) →
      generate_content upstream key tname d1 = generate_content upstream key tname d2 := by
    intro d1 d2 hagree
    unfold generate_content generate_content_with
    by_cases hk : credential_ok key = true
    · rw [hk, hl]
      have hinv_eq : invalidParams info.params d1 = invalidParams info.params d2 :=
        List.filter_congr (fun p hp => by rw [hagree p hp])
      by_cases hv : invalidParams info.params d2 = []
      · have hfind : ∀ p ∈ info.params, pdFind d1 p = pdFind d2 p := by
          intro p hp
          have h2 := invalid_nil_valid hv p hp
          have h1 : paramInvalid p (pdGet d1 p) = false := by rw [hagree p hp]; exact h2
          rw [pdFind_of_not_invalid d1 p h1, pdFind_of_not_invalid d2 p h2, hagree p hp]
        have hfmt := pyFormat_congr d1 d2 (fieldsSubset_of_lookup hl) hfind
        simp [hinv_eq, hfmt]
      · simp [hinv_eq, hv]
    · simp [hk]
  refine ⟨main, ?_⟩
  intro d extras hx
  apply main
  intro p hp
  unfold pdGet
  rw [pdFind_append d extras p (fun e he heq => hx e he (heq ▸ hp))]

/-- C10 witness: an extra dict entry leaves the story run unchanged. -/
theorem C10_noninterference_witness :
    generate_content (fun p => Except.ok p) "sk-test" "故事生成"
        (storyScenarioParams ++ [("extra", PyVal.str "ignored")]) =
      generate_content (fun p => Except.ok p) "sk-test" "故事生成" storyScenarioParams :=
  (C10_noninterference "故事生成" storyInfo rfl "sk-test" (fun p => Except.ok p)).2
    storyScenarioParams [("extra", PyVal.str "ignored")] (by decide)

